import Mathlib

/-!
Verification development for the Fire-Alarm-System-Computer-Vision
repository (FireDetection/app.py and FireDetection/db.py).

The Python program is shallowly embedded: the YOLO detector is treated as
an opaque source of detection boxes (its class indices range over the four
model classes "fire" = 0, "light" = 1, "no-fire" = 2, "smoke" = 3, hence
`Fin 4`), the sqlite database is an explicit record of session rows and
log rows, wall-clock times are natural numbers passed explicitly, and each
loop iteration or HTTP handler body becomes a pure state-transition
function. Database failures are modelled by a Boolean `dbOk` parameter:
`dbOk = false` means the database call raises an exception at that point.
-/

namespace FireDetection

/-- A detection box returned by the YOLO model. Only the class index
(`int(box.cls[0])` in app.py line 116) matters to the counting and
drawing logic; coordinates and confidence only affect pixel output.
The model has exactly four classes (app.py line 23), so the index is
`Fin 4`. -/
structure Box where
  cls : Fin 4
deriving Repr, DecidableEq

/-- The shared detection snapshot `current_detections`
(app.py lines 27-31): fire count, smoke count and a timestamp. -/
structure Snapshot where
  fire : Nat
  smoke : Nat
  timestamp : Nat
deriving Repr, DecidableEq

/-- One row of the `detection_logs` table (db.py lines 37-47). -/
structure LogRow where
  session_id : Nat
  timestamp : Nat
  fire_count : Nat
  smoke_count : Nat
  alert_triggered : Bool
deriving Repr, DecidableEq

/-- One row of the `detection_sessions` table (db.py lines 25-34). -/
structure Session where
  id : Nat
  start_time : Nat
  end_time : Option Nat
  total_fire_detections : Nat
  total_smoke_detections : Nat
  status : String
deriving Repr, DecidableEq

/-- The sqlite database state: the two tables the application writes,
plus the AUTOINCREMENT counter supplying fresh session row ids. -/
structure Db where
  sessions : List Session
  logs : List LogRow
  next_id : Nat
deriving Repr, DecidableEq

/-- The freshly initialised database (db.py init_db: empty tables;
sqlite row ids start at 1). -/
def Db.empty : Db := { sessions := [], logs := [], next_id := 1 }

/-- Model of db.start_session (db.py lines 68-81): INSERT a new row with
the given start time and status "active", return the new row id. -/
def start_session (db : Db) (now : Nat) : Db × Nat :=
  let sid := db.next_id
  ({ db with
      sessions := db.sessions ++
        [{ id := sid, start_time := now, end_time := none,
           total_fire_detections := 0, total_smoke_detections := 0,
           status := "active" }],
      next_id := sid + 1 },
   sid)

/-- Model of db.add_detection_log (db.py lines 114-125): INSERT one row
into detection_logs. -/
def add_detection_log (db : Db) (session_id fire_count smoke_count : Nat)
    (alert_triggered : Bool) (now : Nat) : Db :=
  { db with
      logs := db.logs ++
        [{ session_id := session_id, timestamp := now,
           fire_count := fire_count, smoke_count := smoke_count,
           alert_triggered := alert_triggered }] }

/-- Model of the aggregate query in db.end_session (db.py lines 89-99):
SELECT SUM(fire_count), SUM(smoke_count) FROM detection_logs WHERE
session_id = ?. A NULL sum (no rows) becomes 0 via the `or 0` in
db.py lines 98-99, which the empty fold gives directly. -/
def session_log_sums (logs : List LogRow) (sid : Nat) : Nat × Nat :=
  ((logs.filter (fun r => r.session_id == sid)).foldl
      (fun acc r => acc + r.fire_count) 0,
   (logs.filter (fun r => r.session_id == sid)).foldl
      (fun acc r => acc + r.smoke_count) 0)

/-- Model of db.end_session (db.py lines 83-112): compute the per-session
sums, then UPDATE the session row with end time, totals and status
"completed". -/
def end_session (db : Db) (session_id now : Nat) : Db :=
  let sums := session_log_sums db.logs session_id
  { db with
      sessions := db.sessions.map (fun s =>
        if s.id == session_id then
          { s with end_time := some now,
                   total_fire_detections := sums.1,
                   total_smoke_detections := sums.2,
                   status := "completed" }
        else s) }

/-- One annotation pass over the boxes of a frame (app.py lines 112-141):
returns (fire_count, smoke_count, drawn boxes). Classes 2 ("no-fire")
and 1 ("light") are skipped by the `continue` at line 120; class 0
increments the fire count, class 3 the smoke count, and every
non-skipped box gets a labelled rectangle drawn (lines 128-141),
modelled by collecting it into the drawn list in frame order. -/
def annotateFrame : List Box → Nat × Nat × List Box
  | [] => (0, 0, [])
  | b :: rest =>
    if b.cls.val = 2 ∨ b.cls.val = 1 then
      annotateFrame rest
    else
      let r := annotateFrame rest
      (if b.cls.val = 0 then r.1 + 1 else r.1,
       if b.cls.val = 3 then r.2.1 + 1 else r.2.1,
       b :: r.2.2)

/-- Model of the event push in app.py lines 156-158: the detection queue
has maxsize 10 (app.py line 19), and the event is enqueued only when the
queue is not full (`if not detection_queue.full()`); otherwise it is
dropped. -/
def push_event (q : List Snapshot) (e : Snapshot) : List Snapshot :=
  if q.length < 10 then q ++ [e] else q

/-- The mutable application state shared between the capture thread, the
annotation loop and the HTTP handlers (app.py lines 18-32): the
capturing flag, the current snapshot, the active session id, the
detection event queue and the database. -/
structure AppState where
  capturing : Bool
  current_detections : Snapshot
  current_session_id : Option Nat
  detection_queue : List Snapshot
  db : Db
deriving Repr, DecidableEq

/-- Result of one iteration of the annotation loop body: the state after
the iteration, whether a JPEG frame was yielded to the video stream, and
whether the blanket `except Exception` handler (app.py lines 167-169)
caught an exception during the iteration. The loop always continues to
the next iteration either way. -/
structure StepResult where
  state : AppState
  yielded : Bool
  caught_db_error : Bool
deriving Repr, DecidableEq

/-- One iteration of the annotation loop in `generate` (app.py lines
102-169), given the boxes the detector returned for the dequeued frame.
Counts are computed (lines 112-141); if either count differs from the
previous snapshot (line 144), the shared snapshot is replaced (lines
145-149); if a session is active a log row is appended with
alert_triggered = fire_count > 0 or smoke_count > 0 (lines 151-154) —
when that database call raises (`dbOk = false`) the blanket handler at
lines 167-169 catches it and the loop continues, keeping the snapshot
already replaced at line 145 but skipping the event push and the frame
yield; otherwise the event is pushed if the queue is not full (lines
156-158) and the annotated frame is yielded (lines 160-162). -/
def generateStep (s : AppState) (boxes : List Box) (now : Nat)
    (dbOk : Bool) : StepResult :=
  let fire_count := (annotateFrame boxes).1
  let smoke_count := (annotateFrame boxes).2.1
  if fire_count ≠ s.current_detections.fire ∨
     smoke_count ≠ s.current_detections.smoke then
    let snap : Snapshot :=
      { fire := fire_count, smoke := smoke_count, timestamp := now }
    let s1 := { s with current_detections := snap }
    match s1.current_session_id with
    | some sid =>
      if dbOk then
        let alert := decide (fire_count > 0 ∨ smoke_count > 0)
        let s2 := { s1 with
          db := add_detection_log s1.db sid fire_count smoke_count alert now }
        let s3 := { s2 with
          detection_queue := push_event s2.detection_queue snap }
        { state := s3, yielded := true, caught_db_error := false }
      else
        { state := s1, yielded := false, caught_db_error := true }
    | none =>
      let s3 := { s1 with
        detection_queue := push_event s1.detection_queue snap }
      { state := s3, yielded := true, caught_db_error := false }
  else
    { state := s, yielded := true, caught_db_error := false }

/-- Model of the frame-buffer insert in capture_frames (app.py lines
79-86): `frame_queue` has maxsize 2 (app.py line 18); if the queue is
full the oldest frame is removed with get_nowait, then the new frame is
put. The producer never blocks: after the conditional eviction the queue
has room. -/
def frame_put {α : Type} (q : List α) (f : α) : List α :=
  (if q.length ≥ 2 then q.drop 1 else q) ++ [f]

/-- One read attempt of the inner capture loop (app.py lines 62-77),
as a function of the current consecutive-failure counter and whether
`cap.read()` succeeded. Returns the new counter and whether the loop
breaks to tear down and reopen the connection: on failure the counter is
incremented and the loop breaks exactly when it exceeds 10 (lines
64-74); on success the counter resets to zero (line 77). -/
def capture_read_step (consecutive_failures : Nat) (ret : Bool) :
    Nat × Bool :=
  if ret then
    (0, false)
  else
    let f := consecutive_failures + 1
    if f > 10 then (f, true) else (f, false)

/-- Outcome of one HTTP request handler: either a normal response
together with the state after the handler, or an exception that escaped
the handler (no try/except in the route), carrying the state as mutated
up to the raise. -/
inductive ReqOutcome (α : Type) where
  | ok : AppState → α → ReqOutcome α
  | exn : AppState → ReqOutcome α
deriving Repr, DecidableEq

/-- Model of the /start route (app.py lines 209-229): set capturing,
start a database session (which may raise, propagating out of the
handler), reset the snapshot to zero counts with a fresh timestamp,
drain the detection queue, and return status "ok" with the session id. -/
def start_route (s : AppState) (now : Nat) (dbOk : Bool) :
    ReqOutcome (Nat × String) :=
  let s0 := { s with capturing := true }
  if dbOk then
    let r := start_session s0.db now
    let s1 := { s0 with
      db := r.1,
      current_session_id := some r.2,
      current_detections := { fire := 0, smoke := 0, timestamp := now },
      detection_queue := [] }
    .ok s1 (r.2, "ok")
  else
    .exn s0

/-- Model of the /stop route (app.py lines 231-247): clear capturing, end
the current session if one is active (the database call may raise,
propagating out of the handler), clear the session id, and reset the
snapshot to zero counts. -/
def stop_route (s : AppState) (now : Nat) (dbOk : Bool) :
    ReqOutcome String :=
  let s0 := { s with capturing := false }
  match s0.current_session_id with
  | some sid =>
    if dbOk then
      let s1 := { s0 with
        db := end_session s0.db sid now,
        current_session_id := none,
        current_detections := { fire := 0, smoke := 0, timestamp := now } }
      .ok s1 "OK"
    else
      .exn s0
  | none =>
    .ok { s0 with
          current_detections := { fire := 0, smoke := 0, timestamp := now } }
      "OK"

/-- Model of the /detection_status route (app.py lines 204-207): return
the current snapshot. -/
def detection_status_route (s : AppState) : Snapshot :=
  s.current_detections

/-- Round a rational to two decimal places with round-half-to-even, the
tie-breaking rule of the round builtin applied in db.py lines 244-245.
Python rounds the double sqlite returns; the model applies the same rule
to the exact rational average. -/
def round2 (x : ℚ) : ℚ :=
  let y : ℚ := 100 * x
  let n : ℤ := ⌊y⌋
  let frac : ℚ := y - (n : ℚ)
  let r : ℤ :=
    if frac < 1 / 2 then n
    else if 1 / 2 < frac then n + 1
    else if n % 2 = 0 then n else n + 1
  (r : ℚ) / 100

/-- The payload db.get_statistics returns (db.py lines 249-256). -/
structure Statistics where
  total_sessions : Nat
  total_fire_detections : Nat
  total_smoke_detections : Nat
  recent_sessions : Nat
  avg_fire_per_session : ℚ
  avg_smoke_per_session : ℚ
deriving Repr, DecidableEq

/-- Model of db.get_statistics (db.py lines 207-256): session count,
sums of the per-session totals (NULL becomes 0 via the `or 0`, which the
empty sums give directly), the count of sessions started within the last
day — the query computes the cutoff as now minus one day, which the
model receives explicitly since wall-clock time is explicit — and the
average totals over completed sessions, rounded to two decimals, 0 when
no session is completed (AVG of no rows is NULL, `or 0`). -/
def get_statistics (db : Db) (cutoff : Nat) : Statistics :=
  let completed := db.sessions.filter (fun s => s.status == "completed")
  { total_sessions := db.sessions.length,
    total_fire_detections :=
      (db.sessions.map Session.total_fire_detections).sum,
    total_smoke_detections :=
      (db.sessions.map Session.total_smoke_detections).sum,
    recent_sessions :=
      (db.sessions.filter (fun s => decide (cutoff ≤ s.start_time))).length,
    avg_fire_per_session :=
      if completed.isEmpty then round2 0
      else round2
        (((completed.map Session.total_fire_detections).sum : ℚ) /
          (completed.length : ℚ)),
    avg_smoke_per_session :=
      if completed.isEmpty then round2 0
      else round2
        (((completed.map Session.total_smoke_detections).sum : ℚ) /
          (completed.length : ℚ)) }

/-- Model of db.get_sessions (db.py lines 153-179): all session rows
ordered by start time descending (ties, left in unspecified database
order by the query, are kept in insertion order), limited. -/
def get_sessions (db : Db) (limit : Nat) : List Session :=
  (db.sessions.mergeSort
    (fun a b => decide (b.start_time ≤ a.start_time))).take limit

/-- Model of db.get_session_logs (db.py lines 181-205): the log rows of
one session ordered by timestamp ascending. -/
def get_session_logs (db : Db) (session_id : Nat) : List LogRow :=
  (db.logs.filter (fun r => r.session_id == session_id)).mergeSort
    (fun a b => decide (a.timestamp ≤ b.timestamp))

/-- Model of db.get_detections_by_date (db.py lines 258-293): with both
bounds present, the sessions whose start time lies between them, ordered
by start time descending; otherwise the most recent 100 sessions. -/
def get_detections_by_date (db : Db)
    (start_date end_date : Option Nat) : List Session :=
  match start_date, end_date with
  | some sd, some ed =>
    (db.sessions.filter
        (fun s => decide (sd ≤ s.start_time) &&
          decide (s.start_time ≤ ed))).mergeSort
      (fun a b => decide (b.start_time ≤ a.start_time))
  | _, _ =>
    (db.sessions.mergeSort
      (fun a b => decide (b.start_time ≤ a.start_time))).take 100

/-- Model of the /api/statistics route (app.py lines 250-254): a single
database query with no exception handling — a store failure propagates
as an unhandled exception terminating the request; the application state
is not mutated. -/
def statistics_route (s : AppState) (cutoff : Nat) (dbOk : Bool) :
    ReqOutcome Statistics :=
  if dbOk then .ok s (get_statistics s.db cutoff) else .exn s

/-- Model of the /api/sessions route (app.py lines 256-261): same
shape — one unguarded query. -/
def sessions_route (s : AppState) (limit : Nat) (dbOk : Bool) :
    ReqOutcome (List Session) :=
  if dbOk then .ok s (get_sessions s.db limit) else .exn s

/-- Model of the /api/session/(id) route (app.py lines 263-267): one
unguarded query for a session's logs. -/
def session_details_route (s : AppState) (session_id : Nat)
    (dbOk : Bool) : ReqOutcome (List LogRow) :=
  if dbOk then .ok s (get_session_logs s.db session_id) else .exn s

/-- Model of the /api/reports/date-range route (app.py lines 269-276):
one unguarded query over an optional date range. -/
def reports_by_date_route (s : AppState)
    (start_date end_date : Option Nat) (dbOk : Bool) :
    ReqOutcome (List Session) :=
  if dbOk then .ok s (get_detections_by_date s.db start_date end_date)
  else .exn s

/-- Arguments of one add_detection_log call made while a session is
live, used to describe an arbitrary sequence of log appends between
start and stop. -/
structure LogCall where
  session_id : Nat
  fire_count : Nat
  smoke_count : Nat
  alert_triggered : Bool
  time : Nat
deriving Repr, DecidableEq

/-- The detection_logs row a LogCall inserts. -/
def LogCall.row (c : LogCall) : LogRow :=
  { session_id := c.session_id, timestamp := c.time,
    fire_count := c.fire_count, smoke_count := c.smoke_count,
    alert_triggered := c.alert_triggered }

/-- Replay a sequence of add_detection_log calls against the database. -/
def run_log_calls (db : Db) (calls : List LogCall) : Db :=
  calls.foldl
    (fun d c => add_detection_log d c.session_id c.fire_count
      c.smoke_count c.alert_triggered c.time)
    db

/-- A convenient idle application state: capturing off, zero snapshot,
no active session, empty queue, fresh database. -/
def app_state0 : AppState :=
  { capturing := false,
    current_detections := { fire := 0, smoke := 0, timestamp := 0 },
    current_session_id := none,
    detection_queue := [],
    db := Db.empty }

/-- A state with one active session (id 1), a zero-count previous
snapshot and an empty event queue. -/
def c5_state : AppState :=
  { capturing := true,
    current_detections := { fire := 0, smoke := 0, timestamp := 0 },
    current_session_id := some 1,
    detection_queue := [],
    db := { sessions :=
              [{ id := 1, start_time := 0, end_time := none,
                 total_fire_detections := 0, total_smoke_detections := 0,
                 status := "active" }],
            logs := [], next_id := 2 } }

/-- A frame with one "fire" box (class 0) and one "light" box (class 1). -/
def c5_boxes : List Box := [{ cls := 0 }, { cls := 1 }]

/-- A state whose detection event queue is full (10 pending events). -/
def c1_full_state : AppState :=
  { capturing := true,
    current_detections := { fire := 0, smoke := 0, timestamp := 0 },
    current_session_id := none,
    detection_queue := List.replicate 10 { fire := 0, smoke := 0, timestamp := 0 },
    db := Db.empty }

/-! Helper lemmas. -/

lemma self_ne_append_singleton {α : Type} (q : List α) (e : α) :
    q ≠ q ++ [e] := by
  intro h
  have := congrArg List.length h
  simp at this

lemma run_log_calls_db (db : Db) (calls : List LogCall) :
    (run_log_calls db calls).sessions = db.sessions ∧
    (run_log_calls db calls).next_id = db.next_id ∧
    (run_log_calls db calls).logs = db.logs ++ calls.map LogCall.row := by
  induction calls generalizing db with
  | nil => simp [run_log_calls]
  | cons c cs ih =>
    have hstep : run_log_calls db (c :: cs) =
        run_log_calls (add_detection_log db c.session_id c.fire_count
          c.smoke_count c.alert_triggered c.time) cs := rfl
    rw [hstep]
    obtain ⟨ihs, ihn, ihl⟩ :=
      ih (add_detection_log db c.session_id c.fire_count c.smoke_count
        c.alert_triggered c.time)
    refine ⟨?_, ?_, ?_⟩
    · rw [ihs]; rfl
    · rw [ihn]; rfl
    · rw [ihl]
      simp [add_detection_log, LogCall.row]

lemma foldl_add_count (f : LogRow → Nat) (l : List LogRow) (a : Nat) :
    List.foldl (fun acc r => acc + f r) a l = a + (l.map f).sum := by
  induction l generalizing a with
  | nil => simp
  | cons r rs ih => simp [ih, Nat.add_assoc]

lemma generateStep_queue (s : AppState) (boxes : List Box) (now : Nat) :
    (generateStep s boxes now true).state.detection_queue =
      if ((annotateFrame boxes).1 ≠ s.current_detections.fire ∨
          (annotateFrame boxes).2.1 ≠ s.current_detections.smoke) ∧
         s.detection_queue.length < 10
      then s.detection_queue ++
        [{ fire := (annotateFrame boxes).1,
           smoke := (annotateFrame boxes).2.1, timestamp := now }]
      else s.detection_queue := by
  by_cases hchange : (annotateFrame boxes).1 ≠ s.current_detections.fire ∨
      (annotateFrame boxes).2.1 ≠ s.current_detections.smoke
  · unfold generateStep
    rw [if_pos hchange]
    by_cases hq : s.detection_queue.length < 10 <;>
      cases hsid : s.current_session_id <;>
        simp [hsid, push_event, add_detection_log, hq, hchange]
  · unfold generateStep
    rw [if_neg hchange]
    rw [if_neg (by tauto)]

lemma frame_put_length_le {α : Type} (q : List α) (x : α)
    (h : q.length ≤ 2) : (frame_put q x).length ≤ 2 := by
  unfold frame_put
  split
  · simp
    omega
  · simp
    omega

lemma foldl_frame_put {α : Type} (xs : List α) (q : List α)
    (h : q.length ≤ 2) :
    List.foldl frame_put q xs =
      (q ++ xs).drop (q.length + xs.length - 2) := by
  induction xs generalizing q with
  | nil =>
    simp only [List.foldl_nil, List.append_nil, List.length_nil,
      Nat.add_zero]
    rw [Nat.sub_eq_zero_of_le h, List.drop_zero]
  | cons x xs ih =>
    have hlen := frame_put_length_le q x h
    rw [List.foldl_cons, ih (frame_put q x) hlen]
    rcases q with _ | ⟨a, _ | ⟨b, _ | ⟨c, t⟩⟩⟩
    · simp [frame_put]
      congr 1
      omega
    · simp [frame_put]
      congr 1
      omega
    · simp [frame_put]
    · simp at h

/-! Claim theorems. -/

/-- C2: the frame buffer is a drop-oldest bounded queue of capacity 2:
when the buffer is full the oldest entry is evicted before the newest is
inserted (the producer never blocks — frame_put is total), the buffer
never exceeds two entries, and after any sequence of producer inserts
only the most recent two frames remain retrievable. -/
theorem C2_drop_oldest_buffer :
    (∀ (α : Type) (q : List α) (x : α), 2 ≤ q.length →
        frame_put q x = q.drop 1 ++ [x]) ∧
    (∀ (α : Type) (q : List α) (x : α), q.length ≤ 2 →
        (frame_put q x).length ≤ 2) ∧
    (∀ (α : Type) (xs : List α),
        List.foldl frame_put [] xs = xs.drop (xs.length - 2)) := by
  refine ⟨fun α q x h => ?_, fun α q x h => frame_put_length_le q x h,
    fun α xs => ?_⟩
  · unfold frame_put
    split
    · rfl
    · omega
  · have := foldl_frame_put xs ([] : List α) (by simp)
    simpa using this

/-- Witness for C2 at a concrete buffer: inserting into a full buffer
evicts the oldest element. -/
theorem C2_witness :
    frame_put [1, 2] 3 = List.drop 1 [1, 2] ++ [3] :=
  C2_drop_oldest_buffer.1 Nat [1, 2] 3 (by decide)

/-- C3: detections of class 2 ("no-fire") and class 1 ("light") never
contribute to the fire or smoke counts nor get a box drawn; every class-0
detection increments the fire count by one, every class-3 detection
increments the smoke count by one, and a labelled box is drawn exactly
for the non-ignored (class 0 or 3) detections. Since alerts are computed
from the counts alone, the ignored classes can never trigger alerts. -/
theorem C3_ignored_classes (boxes : List Box) :
    (annotateFrame boxes).1 =
      (boxes.filter (fun b => b.cls.val == 0)).length ∧
    (annotateFrame boxes).2.1 =
      (boxes.filter (fun b => b.cls.val == 3)).length ∧
    (annotateFrame boxes).2.2 =
      boxes.filter (fun b => b.cls.val == 0 || b.cls.val == 3) ∧
    annotateFrame boxes =
      annotateFrame
        (boxes.filter (fun b => !(b.cls.val == 2 || b.cls.val == 1))) := by
  induction boxes with
  | nil => simp [annotateFrame]
  | cons b rest ih =>
    obtain ⟨⟨v, hv⟩⟩ := b
    obtain ⟨ih1, ih2, ih3, ih4⟩ := ih
    interval_cases v <;>
      simp_all [annotateFrame, List.filter]

/-- C6: in the inner capture loop, a successful read resets the
consecutive-failure counter to zero, a failed read increments it by one,
and the loop breaks to tear down and reopen the connection exactly when
the incremented counter exceeds the threshold of 10. -/
theorem C6_failure_counter :
    (∀ f : Nat, capture_read_step f true = (0, false)) ∧
    (∀ f : Nat, (capture_read_step f false).1 = f + 1) ∧
    (∀ f : Nat, ((capture_read_step f false).2 = true ↔ 10 < f + 1)) := by
  refine ⟨fun f => rfl, fun f => ?_, fun f => ?_⟩
  · by_cases h : 10 < f + 1 <;> simp [capture_read_step, h]
  · by_cases h : 10 < f + 1 <;> simp [capture_read_step, h]

/-- Witness for C6: an eleventh consecutive failure triggers a
reconnect, a success resets the counter. -/
theorem C6_witness :
    capture_read_step 7 true = (0, false) :=
  C6_failure_counter.1 7

/-- C1 counterexample: when the detection queue already holds 10 pending
events (its capacity), a frame whose counts differ from the prior
snapshot enqueues nothing — refuting the claim that an event is enqueued
whenever either count differs. -/
theorem C1_counterexample :
    ((annotateFrame [{ cls := 0 }]).1 ≠
        c1_full_state.current_detections.fire ∨
     (annotateFrame [{ cls := 0 }]).2.1 ≠
        c1_full_state.current_detections.smoke) ∧
    (generateStep c1_full_state [{ cls := 0 }] 5 true).state.detection_queue =
      c1_full_state.detection_queue := by
  decide

/-- C1 (amended): with the database healthy, a snapshot event is enqueued
if and only if the newly computed fire or smoke count differs from the
prior snapshot AND the event queue is below its capacity of 10; when both
counts are unchanged nothing is enqueued, and when the queue is full the
event is dropped. -/
theorem C1_event_iff_change (s : AppState) (boxes : List Box) (now : Nat) :
    ((generateStep s boxes now true).state.detection_queue =
        s.detection_queue ++
          [{ fire := (annotateFrame boxes).1,
             smoke := (annotateFrame boxes).2.1, timestamp := now }] ↔
      (((annotateFrame boxes).1 ≠ s.current_detections.fire ∨
        (annotateFrame boxes).2.1 ≠ s.current_detections.smoke) ∧
       s.detection_queue.length < 10)) ∧
    (((annotateFrame boxes).1 = s.current_detections.fire ∧
      (annotateFrame boxes).2.1 = s.current_detections.smoke) →
      (generateStep s boxes now true).state.detection_queue =
        s.detection_queue) ∧
    (¬ s.detection_queue.length < 10 →
      (generateStep s boxes now true).state.detection_queue =
        s.detection_queue) := by
  have hmain := generateStep_queue s boxes now
  refine ⟨⟨fun h => ?_, fun h => ?_⟩, fun h => ?_, fun h => ?_⟩
  · by_cases hC : ((annotateFrame boxes).1 ≠ s.current_detections.fire ∨
        (annotateFrame boxes).2.1 ≠ s.current_detections.smoke) ∧
        s.detection_queue.length < 10
    · exact hC
    · rw [if_neg hC] at hmain
      rw [hmain] at h
      exact absurd h (self_ne_append_singleton _ _)
  · rw [hmain, if_pos h]
  · rw [hmain, if_neg]
    rintro ⟨hch, -⟩
    rcases hch with hne | hne
    · exact hne h.1
    · exact hne h.2
  · rw [hmain, if_neg]
    rintro ⟨-, hlen⟩
    exact h hlen

/-- Witness for C1: in a state whose snapshot already matches the (empty)
frame counts, nothing is enqueued. -/
theorem C1_witness :
    (generateStep app_state0 [] 5 true).state.detection_queue =
      app_state0.detection_queue :=
  (C1_event_iff_change app_state0 [] 5).2.1 (by decide)

/-- C5: with an active session and a zero-count previous snapshot, a
frame for which the detector returns one class-0 ("fire") box and one
class-1 ("light") box yields the snapshot fire = 1, smoke = 0, and
exactly one log row is appended, with alert_triggered = true. -/
theorem C5_fire_and_light_example :
    (generateStep c5_state c5_boxes 7 true).state.current_detections =
      { fire := 1, smoke := 0, timestamp := 7 } ∧
    (generateStep c5_state c5_boxes 7 true).state.db.logs =
      [{ session_id := 1, timestamp := 7, fire_count := 1,
         smoke_count := 0, alert_triggered := true }] := by
  decide

/-- C4: starting a session and later ending it (with any sequence of
log appends in between, and wall-clock time not running backwards)
leaves a session row whose end time is the stop time (hence at least the
start time), whose status is "completed", and whose totals equal the
sums of the fire and smoke counts of the log rows recorded for that
session — 0 each when no such row was recorded, since the sums over the
empty list are 0. The freshness hypothesis says no pre-existing log row
already uses the id the new session will receive. -/
theorem C4_session_close (db0 : Db) (t1 t2 : Nat) (calls : List LogCall)
    (hfresh : ∀ r ∈ db0.logs, r.session_id ≠ db0.next_id)
    (ht : t1 ≤ t2) :
    ∃ s : Session,
      s ∈ (end_session (run_log_calls (start_session db0 t1).1 calls)
            (start_session db0 t1).2 t2).sessions ∧
      s.id = (start_session db0 t1).2 ∧
      s.status = "completed" ∧
      s.start_time = t1 ∧
      s.end_time = some t2 ∧
      s.start_time ≤ t2 ∧
      s.total_fire_detections =
        ((calls.filter
            (fun c => c.session_id == (start_session db0 t1).2)).map
          LogCall.fire_count).sum ∧
      s.total_smoke_detections =
        ((calls.filter
            (fun c => c.session_id == (start_session db0 t1).2)).map
          LogCall.smoke_count).sum := by
  obtain ⟨hsess, hnid, hlogs⟩ :=
    run_log_calls_db (start_session db0 t1).1 calls
  have hsid : (start_session db0 t1).2 = db0.next_id := rfl
  have hrow : ({ id := db0.next_id, start_time := t1, end_time := none,
                 total_fire_detections := 0, total_smoke_detections := 0,
                 status := "active" } : Session) ∈
      (run_log_calls (start_session db0 t1).1 calls).sessions := by
    rw [hsess]
    simp [start_session]
  have hlogs0 : (start_session db0 t1).1.logs = db0.logs := rfl
  have hfilter0 :
      db0.logs.filter (fun r => r.session_id == db0.next_id) = [] := by
    rw [List.filter_eq_nil_iff]
    intro r hr
    simpa using hfresh r hr
  have hfiltermap :
      ((calls.map LogCall.row).filter
          (fun r => r.session_id == db0.next_id)) =
        (calls.filter (fun c => c.session_id == db0.next_id)).map
          LogCall.row := by
    rw [List.filter_map]
    rfl
  have hcomp1 : LogRow.fire_count ∘ LogCall.row = LogCall.fire_count := rfl
  have hcomp2 : LogRow.smoke_count ∘ LogCall.row = LogCall.smoke_count :=
    rfl
  have hsums :
      session_log_sums
          (run_log_calls (start_session db0 t1).1 calls).logs
          db0.next_id =
        (((calls.filter (fun c => c.session_id == db0.next_id)).map
            LogCall.fire_count).sum,
         ((calls.filter (fun c => c.session_id == db0.next_id)).map
            LogCall.smoke_count).sum) := by
    rw [hlogs, hlogs0]
    unfold session_log_sums
    rw [List.filter_append, hfilter0, List.nil_append, hfiltermap]
    rw [foldl_add_count LogRow.fire_count, foldl_add_count LogRow.smoke_count]
    simp [List.map_map, hcomp1, hcomp2]
  refine ⟨{ id := db0.next_id, start_time := t1, end_time := some t2,
            total_fire_detections :=
              ((calls.filter (fun c => c.session_id == db0.next_id)).map
                LogCall.fire_count).sum,
            total_smoke_detections :=
              ((calls.filter (fun c => c.session_id == db0.next_id)).map
                LogCall.smoke_count).sum,
            status := "completed" }, ?_, rfl, rfl, rfl, rfl, ht, rfl, rfl⟩
  unfold end_session
  rw [List.mem_map]
  refine ⟨_, hrow, ?_⟩
  rw [hsid, hsums]
  simp

/-- Two log appends against session 1, used to instantiate C4. -/
def c4_calls : List LogCall :=
  [{ session_id := 1, fire_count := 2, smoke_count := 3,
     alert_triggered := true, time := 5 },
   { session_id := 1, fire_count := 4, smoke_count := 0,
     alert_triggered := true, time := 6 }]

/-- Witness for C4: a session started on an empty database at time 3,
with two log appends, is closed at time 8 with the summed totals. -/
theorem C4_witness :
    ∃ s : Session,
      s ∈ (end_session (run_log_calls (start_session Db.empty 3).1 c4_calls)
            (start_session Db.empty 3).2 8).sessions ∧
      s.id = (start_session Db.empty 3).2 ∧
      s.status = "completed" ∧
      s.start_time = 3 ∧
      s.end_time = some 8 ∧
      s.start_time ≤ 8 ∧
      s.total_fire_detections =
        ((c4_calls.filter
            (fun c => c.session_id == (start_session Db.empty 3).2)).map
          LogCall.fire_count).sum ∧
      s.total_smoke_detections =
        ((c4_calls.filter
            (fun c => c.session_id == (start_session Db.empty 3).2)).map
          LogCall.smoke_count).sum :=
  C4_session_close Db.empty 3 8 c4_calls (by decide) (by decide)

/-- C7 counterexample: with an active session, a zero-count prior
snapshot and a frame that changes the counts, a failing log append does
NOT surface from the annotation loop: the blanket handler catches it and
the iteration completes with the snapshot already replaced and no row
appended — refuting the part of the claim stating the annotation loop
does not catch and continue past a log-append failure. -/
theorem C7_counterexample :
    (generateStep c5_state c5_boxes 3 false).caught_db_error = true ∧
    (generateStep c5_state c5_boxes 3 false).state.current_detections =
      { fire := 1, smoke := 0, timestamp := 3 } ∧
    (generateStep c5_state c5_boxes 3 false).state.db.logs = [] := by
  decide

/-- C7 (amended): a database failure in any HTTP route handler — the
session-managing /start and /stop as well as the four read-only report
routes (/api/statistics, /api/sessions, /api/session/(id),
/api/reports/date-range) — escapes as an unhandled exception
terminating the request with no retry and no rollback; but in the
annotation loop a failing log append is caught by the blanket exception
handler and the loop continues: the iteration records the caught error,
yields no frame, leaves the database untouched, and keeps the snapshot
it had already replaced before the append. -/
theorem C7_db_error_paths (s : AppState) (boxes : List Box)
    (now sid cutoff limit qsid : Nat) (d1 d2 : Option Nat)
    (hsid : s.current_session_id = some sid)
    (hchange : (annotateFrame boxes).1 ≠ s.current_detections.fire ∨
        (annotateFrame boxes).2.1 ≠ s.current_detections.smoke) :
    start_route s now false = .exn { s with capturing := true } ∧
    stop_route s now false = .exn { s with capturing := false } ∧
    statistics_route s cutoff false = .exn s ∧
    sessions_route s limit false = .exn s ∧
    session_details_route s qsid false = .exn s ∧
    reports_by_date_route s d1 d2 false = .exn s ∧
    (generateStep s boxes now false).caught_db_error = true ∧
    (generateStep s boxes now false).yielded = false ∧
    (generateStep s boxes now false).state.db = s.db ∧
    (generateStep s boxes now false).state.current_detections =
      { fire := (annotateFrame boxes).1,
        smoke := (annotateFrame boxes).2.1, timestamp := now } := by
  have hg : generateStep s boxes now false =
      { state := { s with current_detections :=
            { fire := (annotateFrame boxes).1,
              smoke := (annotateFrame boxes).2.1, timestamp := now } },
        yielded := false, caught_db_error := true } := by
    unfold generateStep
    rw [if_pos hchange]
    simp [hsid]
  refine ⟨rfl, ?_, rfl, rfl, rfl, rfl, ?_, ?_, ?_, ?_⟩
  · simp [stop_route, hsid]
  · rw [hg]
  · rw [hg]
  · rw [hg]
  · rw [hg]

/-- Witness for C7 at the concrete active-session state. -/
theorem C7_witness :
    start_route c5_state 3 false = .exn { c5_state with capturing := true } ∧
    stop_route c5_state 3 false = .exn { c5_state with capturing := false } ∧
    statistics_route c5_state 2 false = .exn c5_state ∧
    sessions_route c5_state 50 false = .exn c5_state ∧
    session_details_route c5_state 1 false = .exn c5_state ∧
    reports_by_date_route c5_state (some 0) (some 9) false =
      .exn c5_state ∧
    (generateStep c5_state c5_boxes 3 false).caught_db_error = true ∧
    (generateStep c5_state c5_boxes 3 false).yielded = false ∧
    (generateStep c5_state c5_boxes 3 false).state.db = c5_state.db ∧
    (generateStep c5_state c5_boxes 3 false).state.current_detections =
      { fire := (annotateFrame c5_boxes).1,
        smoke := (annotateFrame c5_boxes).2.1, timestamp := 3 } :=
  C7_db_error_paths c5_state c5_boxes 3 1 2 50 1 (some 0) (some 9)
    (by decide) (by decide)

/-- C8: calling /start with no active session returns status "ok" with a
freshly created session id whose row has status "active"; calling /start
again before any /stop does not close the earlier session — its row is
still present with status "active" and no end time. -/
theorem C8_double_start (s0 : AppState) (t1 t2 : Nat)
    (_hact : ∀ s ∈ s0.db.sessions, s.status ≠ "active") :
    ∃ s1 sid s2 sid2,
      start_route s0 t1 true = .ok s1 (sid, "ok") ∧
      ({ id := sid, start_time := t1, end_time := none,
         total_fire_detections := 0, total_smoke_detections := 0,
         status := "active" } : Session) ∈ s1.db.sessions ∧
      start_route s1 t2 true = .ok s2 (sid2, "ok") ∧
      sid2 ≠ sid ∧
      ({ id := sid, start_time := t1, end_time := none,
         total_fire_detections := 0, total_smoke_detections := 0,
         status := "active" } : Session) ∈ s2.db.sessions := by
  refine ⟨_, _, _, _, rfl, ?_, rfl, ?_, ?_⟩
  · simp [start_route, start_session]
  · simp [start_route, start_session]
  · simp [start_route, start_session]

/-- Witness for C8 on the idle state with an empty database. -/
theorem C8_witness :
    ∃ s1 sid s2 sid2,
      start_route app_state0 3 true = .ok s1 (sid, "ok") ∧
      ({ id := sid, start_time := 3, end_time := none,
         total_fire_detections := 0, total_smoke_detections := 0,
         status := "active" } : Session) ∈ s1.db.sessions ∧
      start_route s1 4 true = .ok s2 (sid2, "ok") ∧
      sid2 ≠ sid ∧
      ({ id := sid, start_time := 3, end_time := none,
         total_fire_detections := 0, total_smoke_detections := 0,
         status := "active" } : Session) ∈ s2.db.sessions :=
  C8_double_start app_state0 3 4 (by decide)

/-- C9: /start resets the shared snapshot to zero counts with the
request timestamp and empties the detection event queue, so a
/detection_status query immediately afterwards reports zero counts;
/stop likewise resets the snapshot to zero counts. -/
theorem C9_start_stop_reset (s0 : AppState) (t : Nat) :
    (∃ s1 sid, start_route s0 t true = .ok s1 (sid, "ok") ∧
      s1.current_detections = { fire := 0, smoke := 0, timestamp := t } ∧
      s1.detection_queue = [] ∧
      detection_status_route s1 =
        { fire := 0, smoke := 0, timestamp := t }) ∧
    (∃ s1 msg, stop_route s0 t true = .ok s1 msg ∧
      s1.current_detections =
        { fire := 0, smoke := 0, timestamp := t }) := by
  constructor
  · exact ⟨_, _, rfl, rfl, rfl, rfl⟩
  · cases hsid : s0.current_session_id with
    | some sid =>
      refine ⟨{ s0 with capturing := false,
                        db := end_session s0.db sid t,
                        current_session_id := none,
                        current_detections :=
                          { fire := 0, smoke := 0, timestamp := t } },
              "OK", ?_, rfl⟩
      simp [stop_route, hsid]
    | none =>
      refine ⟨{ s0 with capturing := false,
                        current_detections :=
                          { fire := 0, smoke := 0, timestamp := t } },
              "OK", ?_, rfl⟩
      simp [stop_route, hsid]

/-- A detection log row with one fire detection, used for C10. -/
def c10_row : LogRow :=
  { session_id := 1, timestamp := 7, fire_count := 1, smoke_count := 0,
    alert_triggered := true }

/-- C10: every log row the annotation loop appends has alert_triggered
true exactly when its fire count or smoke count is positive: a row
present after an iteration either was already in the table or satisfies
the invariant. The annotation loop performs the only detection_logs
insert in the application. -/
theorem C10_log_alert_invariant (s : AppState) (boxes : List Box)
    (now : Nat) (dbOk : Bool) (r : LogRow)
    (hr : r ∈ (generateStep s boxes now dbOk).state.db.logs) :
    r ∈ s.db.logs ∨
      (r.alert_triggered = true ↔
        (0 < r.fire_count ∨ 0 < r.smoke_count)) := by
  by_cases hchange : (annotateFrame boxes).1 ≠ s.current_detections.fire ∨
      (annotateFrame boxes).2.1 ≠ s.current_detections.smoke
  · unfold generateStep at hr
    rw [if_pos hchange] at hr
    cases hsid : s.current_session_id with
    | none =>
      simp [hsid, push_event, add_detection_log] at hr
      exact Or.inl hr
    | some sid =>
      cases dbOk with
      | false =>
        simp [hsid] at hr
        exact Or.inl hr
      | true =>
        simp [hsid, push_event, add_detection_log] at hr
        rcases hr with hr | hr
        · exact Or.inl hr
        · right
          subst hr
          simp
  · unfold generateStep at hr
    rw [if_neg hchange] at hr
    exact Or.inl hr

/-- Witness for C10: the row appended in the C5 scenario satisfies the
alert invariant. -/
theorem C10_witness :
    c10_row ∈ c5_state.db.logs ∨
      (c10_row.alert_triggered = true ↔
        (0 < c10_row.fire_count ∨ 0 < c10_row.smoke_count)) :=
  C10_log_alert_invariant c5_state c5_boxes 7 true c10_row (by decide)

end FireDetection
